import Mathlib

/-!
Verification of the polaroid-booth compositing subsystem.

The development shallow-embeds the `CanvasDrawer` class (newer revision) and
the `PolaroidMaker.addCapturedImage` state update (both revisions, which
differ) from the repository's two JavaScript files.  Geometry is modelled
over `ℚ`; the drawing surface is modelled as the list of cell draws the
compositor performs (position, scale, source-image index, caption text and
decoration ids per cell), since no claim depends on pixel contents beyond
those placement facts.  Asset loading is modelled by an environment
`env : String → Bool` deciding, per image source / decoration id, whether
its `decode()` succeeds.
-/

/-! ## Fixed constants (`CanvasDrawer.CONSTANTS`) -/

def FONT_SIZE : ℚ := 90
def PADDING : ℚ := 60
def TEXT_AREA_HEIGHT : ℚ := 220
def IMG_SIZE : ℚ := 1000
def POLAROID_WIDTH : ℚ := 1000 + 60 * 2
def POLAROID_HEIGHT : ℚ := IMG_SIZE + PADDING + TEXT_AREA_HEIGHT
def GRID_GAP : ℚ := 100

/-! ## Data model -/

/-- One cell drawn by `createDownloadableCanvas`: its index, the translate
offset `(x, y)` applied before drawing it, the scale `(sx, sy)` applied
(1,1 except for collage small cells), the index into `loadedImages` of the
image drawn in it, the caption string passed to the per-cell draw routine
(the routine draws a text run only when this string is non-empty), and the
list of decoration ids passed to it (the routine draws each of them). -/
structure CellDraw where
  idx : Nat
  x : ℚ
  y : ℚ
  sx : ℚ
  sy : ℚ
  imgIdx : Nat
  txt : String
  decos : List String
deriving DecidableEq

/-- The finished surface: its dimensions and the cells drawn onto it. -/
structure Output where
  width : ℚ
  height : ℚ
  cells : List CellDraw
deriving DecidableEq

/-- The failure modes `createDownloadableCanvas` can hit.
`decoTypeError`: the TypeError thrown while building the decoration map
when a decoration failed to load (reading `.id` of `undefined`).
`noImages`: the explicit `throw new Error("No images to draw.")`.
`imgTypeError`: the TypeError thrown when the grid branch hands an
`undefined` entry of `loadedImages` to the per-cell draw routine, which
reads `.width` of it (this happens after that cell's background fill). -/
inductive ComposeError where
  | decoTypeError
  | noImages
  | imgTypeError
deriving DecidableEq

/-! ## Asset loading (`CanvasDrawer._loadAssets`) -/

/-- Outcome of the per-source `img.decode()` calls: each promise resolves
to the image on success and — because the source attaches
`.catch(e => console.error(...))` — to `undefined` on failure, so the
resulting array keeps one slot per source, `none` marking a failed load. -/
def loadOutcomes (env : String → Bool) (srcs : List String) : List (Option String) :=
  srcs.map fun s => if env s then some s else none

/-- Building the decoration map: the source maps
`d => [d.id, d.img]` over the settled decoration array.  A failed
decoration settles to `undefined`, so the property access `.id` throws a
TypeError at the first failed entry; otherwise the loaded ids are kept in
order. -/
def buildDecoMap : List (Option String) → Except ComposeError (List String)
  | [] => .ok []
  | none :: _ => .error .decoTypeError
  | some d :: rest =>
      match buildDecoMap rest with
      | .error e => .error e
      | .ok m => .ok (d :: m)

/-! ## Cover-fit drawing (`_drawImageWithAspect` + `Ratio` helper) -/

/-- Destination rectangle of one image draw. -/
structure DrawRect where
  x : ℚ
  y : ℚ
  w : ℚ
  h : ℚ
deriving DecidableEq

/-- The aspect-preserving cover-fit helper: scales the `(imgW, imgH)`
source by the larger of the two axis ratios and centers the overflow in
the `(dW, dH)` target at `(dx, dy)`. -/
def coverFitRect (imgW imgH dx dy dW dH : ℚ) : DrawRect :=
  let rh := dW / imgW
  let rv := dH / imgH
  let r := max rh rv
  let centerShiftX := (dW - imgW * r) / 2
  let centerShiftY := (dH - imgH * r) / 2
  { x := dx + centerShiftX, y := dy + centerShiftY, w := imgW * r, h := imgH * r }

/-! ## Layout geometry and the compositor (`createDownloadableCanvas`) -/

/-- The `cols`/`rows` assignment of the non-collage branch: defaults
`(1, 1)`, overridden for the recognized grid layouts.  Every layout id
other than `grid-2x2`, `grid-strip`, `grid-4x1` (and `collage`, handled
in a separate branch) keeps the single-cell default. -/
def gridColsRows (layout : String) : Nat × Nat :=
  if layout = "grid-2x2" then (2, 2)
  else if layout = "grid-strip" ∨ layout = "grid-4x1" then (1, 4)
  else (1, 1)

/-- One cell of the non-collage branch at loop index `i`:
row-major placement, caption only when `i` is the last index of
`loadedImages`, decorations whenever the layout is `single` or `i = 0`. -/
def gridCell (layout text : String) (dm : List String) (cols total i : Nat) : CellDraw :=
  { idx := i
    x := ((i % cols : Nat) : ℚ) * (POLAROID_WIDTH + GRID_GAP)
    y := ((i / cols : Nat) : ℚ) * (POLAROID_HEIGHT + GRID_GAP)
    sx := 1
    sy := 1
    imgIdx := i
    txt := if i = total - 1 then text else ""
    decos := if layout = "single" ∨ i = 0 then dm else [] }

/-- The non-collage drawing loop over `loadedImages`.  A `none` entry
(failed main image) reaches the per-cell routine, whose cover-fit helper
reads `.width` of `undefined` and throws. -/
def gridCells (layout text : String) (dm : List String) (cols total : Nat) :
    Nat → List (Option String) → Except ComposeError (List CellDraw)
  | _, [] => .ok []
  | _, none :: _ => .error .imgTypeError
  | i, some _ :: rest =>
      match gridCells layout text dm cols total (i + 1) rest with
      | .error e => .error e
      | .ok cs => .ok (gridCell layout text dm cols total i :: cs)

/-- A small collage cell (`i` is 1 or 2): translated below the large cell,
scaled by `(w_small / POLAROID_WIDTH, h_small / POLAROID_HEIGHT)` where
`w_small = (POLAROID_WIDTH - GRID_GAP) / 2` and
`h_small = POLAROID_HEIGHT`; caption only at the last index of
`loadedImages`; never any decorations. -/
def collageSmallCell (text : String) (total i : Nat) : CellDraw :=
  { idx := i
    x := ((i - 1 : Nat) : ℚ) * ((POLAROID_WIDTH - GRID_GAP) / 2 + GRID_GAP)
    y := POLAROID_HEIGHT + GRID_GAP
    sx := ((POLAROID_WIDTH - GRID_GAP) / 2) / POLAROID_WIDTH
    sy := POLAROID_HEIGHT / POLAROID_HEIGHT
    imgIdx := i
    txt := if i = total - 1 then text else ""
    decos := [] }

/-- The compositor.  Mirrors the source's control flow: load assets (a
failed decoration already throws there), throw `noImages` when
`loadedImages.length === 0` (note the length counts failed slots), then
either the collage branch (large cell drawn if slot 0 loaded, small cells
for slots 1 and 2 if loaded, missing slots skipped) or the grid branch
(every slot drawn in order, a failed slot throwing mid-loop). -/
def createDownloadableCanvas (layout : String) (images : List String)
    (text : String) (decorations : List String) (env : String → Bool) :
    Except ComposeError Output :=
  let loadedImages := loadOutcomes env images
  match buildDecoMap (loadOutcomes env decorations) with
  | .error e => .error e
  | .ok dm =>
    if loadedImages.length = 0 then .error .noImages
    else if layout = "collage" then
      let total := loadedImages.length
      let large : List CellDraw :=
        match loadedImages[0]? with
        | some (some _) =>
            [{ idx := 0, x := 0, y := 0, sx := 1, sy := 1,
               imgIdx := 0, txt := "", decos := dm }]
        | _ => []
      let small1 : List CellDraw :=
        match loadedImages[1]? with
        | some (some _) => [collageSmallCell text total 1]
        | _ => []
      let small2 : List CellDraw :=
        match loadedImages[2]? with
        | some (some _) => [collageSmallCell text total 2]
        | _ => []
      .ok { width := POLAROID_WIDTH
            height := POLAROID_HEIGHT + POLAROID_HEIGHT + GRID_GAP
            cells := large ++ small1 ++ small2 }
    else
      let cols := (gridColsRows layout).1
      let rows := (gridColsRows layout).2
      match gridCells layout text dm cols loadedImages.length 0 loadedImages with
      | .error e => .error e
      | .ok cells =>
          .ok { width := (cols : ℚ) * POLAROID_WIDTH + ((cols : ℚ) - 1) * GRID_GAP
                height := (rows : ℚ) * POLAROID_HEIGHT + ((rows : ℚ) - 1) * GRID_GAP
                cells := cells }

/-! ## Captured-image list (`PolaroidMaker`) -/

/-- `_getMaxImagesForLayout` of the newer revision. -/
def getMaxImagesForLayout (layout : String) : Nat :=
  if layout = "single" then 1
  else if layout = "grid-2x2" then 4
  else if layout = "grid-strip" then 4
  else if layout = "collage" then 3
  else 1

/-- `addCapturedImage` of the newer revision: when the list has already
reached the current capacity it shifts exactly one element, then pushes.
`maxImages` stands for the `_getMaxImagesForLayout()` value at call time. -/
def addCapturedImage (maxImages : Nat) (l : List Nat) (x : Nat) : List Nat :=
  (if maxImages ≤ l.length then l.tail else l) ++ [x]

/-- The `while (length > maxImages) shift()` loop of the older revision. -/
def shiftWhileOver (maxImages : Nat) : List Nat → List Nat
  | [] => []
  | x :: xs =>
      if maxImages < (x :: xs).length then shiftWhileOver maxImages xs else x :: xs

/-- `addCapturedImage` of the older revision (app.js): push first, then
shift while the list is longer than the capacity. -/
def addCapturedImageAppJs (maxImages : Nat) (l : List Nat) (x : Nat) : List Nat :=
  shiftWhileOver maxImages (l ++ [x])

/-! ## Closed forms of a fully successful composition -/

/-- The large collage cell: drawn at the origin, unscaled, holding image
slot 0, never any caption, carrying the whole decoration map. -/
def largeCell (dm : List String) : CellDraw :=
  { idx := 0, x := 0, y := 0, sx := 1, sy := 1, imgIdx := 0, txt := "", decos := dm }

/-- The cells the collage branch draws when every one of the `n ≥ 1`
supplied images loads. -/
def collageCellsAll (n : Nat) (text : String) (dm : List String) : List CellDraw :=
  largeCell dm ::
    ((if 2 ≤ n then [collageSmallCell text n 1] else []) ++
     (if 3 ≤ n then [collageSmallCell text n 2] else []))

/-- The output of the non-collage branch when every one of the `n`
supplied images loads. -/
def gridOutputAll (layout : String) (n : Nat) (text : String) (dm : List String) : Output :=
  let cols := (gridColsRows layout).1
  let rows := (gridColsRows layout).2
  { width := (cols : ℚ) * POLAROID_WIDTH + ((cols : ℚ) - 1) * GRID_GAP
    height := (rows : ℚ) * POLAROID_HEIGHT + ((rows : ℚ) - 1) * GRID_GAP
    cells := (List.range n).map fun j => gridCell layout text dm cols n j }

/-! ## Spec-side surface-dimension formulas (for the refinement claim) -/

/-- Cell width as the spec words it: image side plus twice the padding. -/
def specCellWidth : ℚ := IMG_SIZE + 2 * PADDING

/-- Cell height as the spec words it: image side plus padding plus the
caption band. -/
def specCellHeight : ℚ := IMG_SIZE + PADDING + TEXT_AREA_HEIGHT

/-- The documented surface-size formulas, written from the spec's words
(grid layouts: `cols x cellWidth + (cols-1) x gap` by
`rows x cellHeight + (rows-1) x gap` with `(cols, rows)` equal to (1,1),
(2,2), (1,4); collage: large cell width by large-cell height plus
small-cell height plus gap), to be compared with the dimensions the
embedded compositor computes. -/
def specSurfaceSize (layout : String) : ℚ × ℚ :=
  if layout = "single" then (specCellWidth, specCellHeight)
  else if layout = "grid-2x2" then
    (2 * specCellWidth + GRID_GAP, 2 * specCellHeight + GRID_GAP)
  else if layout = "grid-strip" then
    (specCellWidth, 4 * specCellHeight + 3 * GRID_GAP)
  else (specCellWidth, specCellHeight + specCellHeight + GRID_GAP)

/-! ## Helper lemmas -/

lemma loadOutcomes_of_success (env : String → Bool) :
    ∀ (srcs : List String), (∀ s ∈ srcs, env s = true) →
      loadOutcomes env srcs = srcs.map some
  | [], _ => rfl
  | a :: t, h => by
      have ha : env a = true := h a (by simp)
      have ht := loadOutcomes_of_success env t (fun s hs => h s (by simp [hs]))
      simp only [loadOutcomes, List.map_cons, ha, if_true] at ht ⊢
      simp [ht]

lemma buildDecoMap_map_some (l : List String) :
    buildDecoMap (l.map some) = .ok l := by
  induction l with
  | nil => rfl
  | cons a t ih => simp [buildDecoMap, ih]

lemma gridCells_map_some (layout text : String) (dm : List String) (cols total : Nat) :
    ∀ (l : List String) (i : Nat),
      gridCells layout text dm cols total i (l.map some) =
        .ok ((List.range l.length).map fun j => gridCell layout text dm cols total (i + j))
  | [], _ => rfl
  | a :: t, i => by
      have ih := gridCells_map_some layout text dm cols total t (i + 1)
      simp only [List.map_cons, gridCells, ih, List.length_cons, List.range_succ_eq_map,
        List.map_map]
      congr 1
      refine List.cons_eq_cons.mpr ⟨by simp, ?_⟩
      refine List.map_congr_left fun j hj => ?_
      simp only [Function.comp_apply]
      congr 1
      omega

/-- When every supplied image and every active decoration loads, the
compositor succeeds and produces exactly the closed-form output of the
branch chosen by the layout id. -/
lemma createDownloadableCanvas_success (layout : String) (imgs : List String)
    (text : String) (decos : List String) (env : String → Bool)
    (hi : ∀ s ∈ imgs, env s = true) (hd : ∀ d ∈ decos, env d = true)
    (hne : imgs ≠ []) :
    createDownloadableCanvas layout imgs text decos env =
      .ok (if layout = "collage"
           then { width := POLAROID_WIDTH
                  height := POLAROID_HEIGHT + POLAROID_HEIGHT + GRID_GAP
                  cells := collageCellsAll imgs.length text decos }
           else gridOutputAll layout imgs.length text decos) := by
  have hload := loadOutcomes_of_success env imgs hi
  have hdeco := loadOutcomes_of_success env decos hd
  have hlen : ¬ imgs.length = 0 := by simpa using hne
  simp only [createDownloadableCanvas, hload, hdeco, buildDecoMap_map_some,
    List.length_map, hlen, if_false]
  by_cases hc : layout = "collage"
  · simp only [hc, if_pos rfl]
    rcases imgs with _ | ⟨a, t⟩
    · exact absurd rfl hne
    rcases t with _ | ⟨b, t2⟩
    · simp [collageCellsAll, largeCell]
    rcases t2 with _ | ⟨c, t3⟩
    · simp [collageCellsAll, largeCell]
    · have h2 : 2 ≤ t3.length + 3 := by omega
      have h3 : 3 ≤ t3.length + 3 := by omega
      simp [collageCellsAll, largeCell, h2, h3]
  · simp only [hc, if_false]
    simp [gridCells_map_some, gridOutputAll]

/-- Caption cells of a fully successful collage composition: none when only
one image (the large cell never carries a caption) or more than three
(the caption index lies past the last small cell); otherwise exactly the
small cell at the last image index. -/
lemma collage_captions (n : Nat) (text : String) (dm : List String) (hn : 1 ≤ n)
    (ht : text ≠ "") :
    ((collageCellsAll n text dm).filter (fun c => c.txt != "")).map (fun c => (c.idx, c.txt)) =
      if n = 1 ∨ 4 ≤ n then [] else [(n - 1, text)] := by
  rcases n with _ | _ | _ | _ | m
  · omega
  · simp [collageCellsAll, largeCell, collageSmallCell]
  · simp [collageCellsAll, largeCell, collageSmallCell, bne_iff_ne, ht]
  · simp [collageCellsAll, largeCell, collageSmallCell, bne_iff_ne, ht]
  · have h2 : 2 ≤ m + 4 := by omega
    have h3 : 3 ≤ m + 4 := by omega
    have e1 : ¬(1 = m + 4 - 1) := by omega
    have e2 : ¬(2 = m + 4 - 1) := by omega
    have e4 : 4 ≤ m + 4 := by omega
    simp [collageCellsAll, largeCell, collageSmallCell, h2, h3, e1, e2, e4]

/-- Caption cells of a fully successful non-collage composition: exactly
the cell at the last image index. -/
lemma grid_captions (layout text : String) (dm : List String) (cols n : Nat)
    (hn : 1 ≤ n) (ht : text ≠ "") :
    (((List.range n).map fun j => gridCell layout text dm cols n j).filter
        (fun c => c.txt != "")).map (fun c => (c.idx, c.txt)) = [(n - 1, text)] := by
  have hr : List.range n = List.range (n - 1) ++ [n - 1] := by
    conv_lhs => rw [show n = (n - 1) + 1 by omega]
    rw [List.range_succ]
  rw [hr, List.map_append, List.filter_append, List.map_append]
  have h1 : (((List.range (n - 1)).map fun j => gridCell layout text dm cols n j).filter
      (fun c => c.txt != "")) = [] := by
    refine List.filter_eq_nil_iff.mpr fun c hc => ?_
    rcases List.mem_map.mp hc with ⟨j, hj, rfl⟩
    have hjlt : j < n - 1 := List.mem_range.mp hj
    simp [gridCell, show ¬(j = n - 1) by omega]
  rw [h1]
  simp [gridCell, bne_iff_ne, ht]

/-- Membership in a successful collage cell list. -/
lemma mem_collageCellsAll {c : CellDraw} {n : Nat} {text : String} {dm : List String}
    (hc : c ∈ collageCellsAll n text dm) :
    c = largeCell dm ∨ c = collageSmallCell text n 1 ∨ c = collageSmallCell text n 2 := by
  by_cases h2 : 2 ≤ n <;> by_cases h3 : 3 ≤ n <;>
    simp [collageCellsAll, h2, h3] at hc <;> tauto

/-- Image indices drawn by a successful collage composition: the first
`min n 3` input images, in order. -/
lemma collage_imgIdx (n : Nat) (text : String) (dm : List String) (hn : 1 ≤ n) :
    (collageCellsAll n text dm).map (fun c => c.imgIdx) = List.range (min n 3) := by
  rcases n with _ | _ | _ | _ | m
  · omega
  · rfl
  · rfl
  · rfl
  · have h2 : 2 ≤ m + 4 := by omega
    have h3 : 3 ≤ m + 4 := by omega
    have hm : min (m + 4) 3 = 3 := by omega
    rw [hm]
    simp [collageCellsAll, largeCell, collageSmallCell, h2, h3]
    rfl

/-- A grid cell whose index reaches the layout capacity `cols * rows` is
translated to a `y` offset at or below the surface height, so the whole
cell lies outside the drawn surface. -/
lemma gridCell_y_bound (layout text : String) (dm : List String) (cols rows n j : Nat)
    (hcols : 1 ≤ cols) (hcap : cols * rows ≤ j) :
    (rows : ℚ) * POLAROID_HEIGHT + ((rows : ℚ) - 1) * GRID_GAP ≤
      (gridCell layout text dm cols n j).y := by
  have hdiv : rows ≤ j / cols := by
    refine (Nat.le_div_iff_mul_le hcols).mpr ?_
    rw [Nat.mul_comm]
    exact hcap
  have h1 : (rows : ℚ) ≤ ((j / cols : Nat) : ℚ) := by exact_mod_cast hdiv
  have h2 : ((rows : ℚ)) * (POLAROID_HEIGHT + GRID_GAP) ≤
      ((j / cols : Nat) : ℚ) * (POLAROID_HEIGHT + GRID_GAP) := by
    refine mul_le_mul_of_nonneg_right h1 ?_
    norm_num [POLAROID_HEIGHT, GRID_GAP, IMG_SIZE, PADDING, TEXT_AREA_HEIGHT]
  simp only [gridCell]
  norm_num [POLAROID_HEIGHT, GRID_GAP, IMG_SIZE, PADDING, TEXT_AREA_HEIGHT] at h2 ⊢
  linarith

/-! ## Claims -/

/-- Claim C1 (code bug): the claim says a compose call with one failing
and one succeeding decoration completes without error, keeping the
succeeding decoration.  The code instead throws a TypeError while
building the decoration map (a failed decoration settles to `undefined`
and `.id` is read from it), so the whole composition is rejected; the
same call with both decorations loading succeeds and draws both.  The
catch-and-log on each decoration load shows the failure was meant to be
non-fatal, so this is a slip in the code, not in the spec. -/
theorem c1_decoration_failure_crashes_compose :
    createDownloadableCanvas "single" ["a"] "hi"
        ["sparkle-decoration", "heart-decoration"]
        (fun s => !(s == "sparkle-decoration")) =
      .error .decoTypeError ∧
    createDownloadableCanvas "single" ["a"] "hi"
        ["sparkle-decoration", "heart-decoration"] (fun _ => true) =
      .ok { width := 1120, height := 1280,
            cells := [{ idx := 0, x := 0, y := 0, sx := 1, sy := 1, imgIdx := 0,
                        txt := "hi",
                        decos := ["sparkle-decoration", "heart-decoration"] }] } := by
  constructor
  · rfl
  · norm_num +decide [createDownloadableCanvas, loadOutcomes, buildDecoMap, gridColsRows,
      gridCells, gridCell, POLAROID_WIDTH, POLAROID_HEIGHT, GRID_GAP, IMG_SIZE, PADDING,
      TEXT_AREA_HEIGHT]

/-- Claim C2 (code bug): the claim says compose fails with NoImagesError
whenever zero main images resolve, including the all-loads-fail case.
The code's check `loadedImages.length === 0` counts failed slots, so it
fires only for an empty input list (first conjunct).  With a non-empty
list whose only image fails to load, the grid branch resizes the surface,
draws the cell background and then crashes with a TypeError (second
conjunct: not NoImagesError), and the collage branch returns a blank
sized surface with no error at all (third conjunct). -/
theorem c2_no_images_error_only_for_empty_input :
    createDownloadableCanvas "grid-2x2" [] "" [] (fun _ => true) =
      .error .noImages ∧
    createDownloadableCanvas "grid-2x2" ["x"] "" [] (fun _ => false) =
      .error .imgTypeError ∧
    createDownloadableCanvas "collage" ["x"] "" [] (fun _ => false) =
      .ok { width := 1120, height := 2660, cells := [] } := by
  refine ⟨rfl, rfl, ?_⟩
  norm_num +decide [createDownloadableCanvas, loadOutcomes, buildDecoMap,
    POLAROID_WIDTH, POLAROID_HEIGHT, GRID_GAP, IMG_SIZE, PADDING, TEXT_AREA_HEIGHT]

/-- Claim C3 counterexample: a collage compose call with one image that
loads and a non-empty caption draws one cell but gives the caption to no
cell, contradicting the claim that exactly one drawn cell receives it. -/
theorem c3_collage_one_image_no_caption :
    (createDownloadableCanvas "collage" ["a"] "hi" [] (fun _ => true)).toOption.map
        (fun o => (o.cells.length, o.cells.filter (fun c => c.txt != ""))) =
      some (1, []) := rfl

/-- Claim C3 (amended): with every image loading and a non-empty caption,
the caption goes to the cell at the last input index and all other drawn
cells render an empty caption area — except in the collage layout when
there is exactly one image (the large cell never carries a caption) or
more than three (the caption index lies past the last drawn cell), where
no cell receives the caption. -/
theorem c3_caption_placement_amended (layout : String) (imgs : List String)
    (text : String) (decos : List String) (env : String → Bool)
    (hi : ∀ s ∈ imgs, env s = true) (hd : ∀ d ∈ decos, env d = true)
    (hne : imgs ≠ []) (ht : text ≠ "") :
    ∃ out, createDownloadableCanvas layout imgs text decos env = .ok out ∧
      (out.cells.filter (fun c => c.txt != "")).map (fun c => (c.idx, c.txt)) =
        (if layout = "collage" ∧ (imgs.length = 1 ∨ 4 ≤ imgs.length) then []
         else [(imgs.length - 1, text)]) := by
  refine ⟨_, createDownloadableCanvas_success layout imgs text decos env hi hd hne, ?_⟩
  have hn : 1 ≤ imgs.length := List.length_pos.mpr hne
  by_cases hc : layout = "collage"
  · simp only [hc, eq_self_iff_true, if_true, true_and]
    rw [collage_captions imgs.length text decos hn ht]
  · simp only [hc, if_false, gridOutputAll]
    rw [grid_captions layout text decos _ imgs.length hn ht]
    simp [hc]

/-- Claim C3 witness: a concrete strip composition with two images whose
caption lands on the second cell. -/
theorem c3_caption_placement_amended_witness :
    (∀ s ∈ (["a", "b"] : List String), (fun _ : String => true) s = true) ∧
    (∀ d ∈ ([] : List String), (fun _ : String => true) d = true) ∧
    (["a", "b"] : List String) ≠ [] ∧
    ("hi" : String) ≠ "" ∧
    (∃ out, createDownloadableCanvas "grid-strip" ["a", "b"] "hi" [] (fun _ => true) =
        .ok out ∧
      (out.cells.filter (fun c => c.txt != "")).map (fun c => (c.idx, c.txt)) =
        (if "grid-strip" = "collage" ∧
            ((["a", "b"] : List String).length = 1 ∨ 4 ≤ (["a", "b"] : List String).length)
         then [] else [((["a", "b"] : List String).length - 1, "hi")])) :=
  ⟨by simp, by simp, by simp, by simp,
    c3_caption_placement_amended "grid-strip" ["a", "b"] "hi" [] (fun _ => true)
      (by simp) (by simp) (by simp) (by simp)⟩

/-- Claim C4 counterexample: a single-layout compose call with two images
(capacity 1) performs a draw of image index 1 as well, contradicting the
claim that extra images are never drawn. -/
theorem c4_extra_image_is_drawn :
    (createDownloadableCanvas "single" ["a", "b"] "" [] (fun _ => true)).toOption.map
        (fun o => o.cells.map (fun c => c.imgIdx)) = some [0, 1] ∧
    getMaxImagesForLayout "single" = 1 := ⟨rfl, rfl⟩

/-- Claim C4 (amended): with every image loading, the collage branch
draws exactly the first `min n 3` images, while single and grid layouts
draw every supplied image in input order; each image lands in the cell of
its own index, and every cell whose index reaches the layout capacity is
translated entirely below the output surface (`surface height <= cell y`),
so only the first `capacity` images appear in the visible output. -/
theorem c4_capacity_overflow_amended (layout : String) (imgs : List String)
    (text : String) (decos : List String) (env : String → Bool)
    (hl : layout = "single" ∨ layout = "grid-2x2" ∨ layout = "grid-strip" ∨
      layout = "collage")
    (hi : ∀ s ∈ imgs, env s = true) (hd : ∀ d ∈ decos, env d = true)
    (hne : imgs ≠ []) :
    ∃ out, createDownloadableCanvas layout imgs text decos env = .ok out ∧
      out.cells.map (fun c => c.imgIdx) =
        List.range (if layout = "collage" then min imgs.length 3 else imgs.length) ∧
      (∀ c ∈ out.cells, c.imgIdx = c.idx) ∧
      (∀ c ∈ out.cells, getMaxImagesForLayout layout ≤ c.idx → out.height ≤ c.y) := by
  have hn : 1 ≤ imgs.length := List.length_pos.mpr hne
  refine ⟨_, createDownloadableCanvas_success layout imgs text decos env hi hd hne,
    ?_, ?_, ?_⟩
  · by_cases hc : layout = "collage"
    · simp only [hc, eq_self_iff_true, if_true]
      exact collage_imgIdx imgs.length text decos hn
    · simp only [hc, if_false, gridOutputAll, List.map_map]
      have hfun : ((fun c : CellDraw => c.imgIdx) ∘
          fun j => gridCell layout text decos (gridColsRows layout).1 imgs.length j) =
          fun j => j := by
        funext j
        rfl
      rw [hfun]
      simp
  · by_cases hc : layout = "collage"
    · simp only [hc, eq_self_iff_true, if_true]
      intro c hcm
      rcases mem_collageCellsAll hcm with rfl | rfl | rfl <;> rfl
    · simp only [hc, if_false, gridOutputAll]
      intro c hcm
      obtain ⟨j, hj, rfl⟩ := List.mem_map.mp hcm
      rfl
  · rcases hl with h | h | h | h <;> subst h
    · intro c hcm hcap
      simp only [if_neg (by decide : ¬("single" = "collage")), gridOutputAll] at hcm ⊢
      obtain ⟨j, hj, rfl⟩ := List.mem_map.mp hcm
      norm_num +decide [getMaxImagesForLayout, gridCell] at hcap
      refine gridCell_y_bound "single" text decos _ _ imgs.length j (by decide) ?_
      have hval : (gridColsRows "single").1 * (gridColsRows "single").2 = 1 := by decide
      rw [hval]
      exact hcap
    · intro c hcm hcap
      simp only [if_neg (by decide : ¬("grid-2x2" = "collage")), gridOutputAll] at hcm ⊢
      obtain ⟨j, hj, rfl⟩ := List.mem_map.mp hcm
      norm_num +decide [getMaxImagesForLayout, gridCell] at hcap
      refine gridCell_y_bound "grid-2x2" text decos _ _ imgs.length j (by decide) ?_
      have hval : (gridColsRows "grid-2x2").1 * (gridColsRows "grid-2x2").2 = 4 := by decide
      rw [hval]
      exact hcap
    · intro c hcm hcap
      simp only [if_neg (by decide : ¬("grid-strip" = "collage")), gridOutputAll] at hcm ⊢
      obtain ⟨j, hj, rfl⟩ := List.mem_map.mp hcm
      norm_num +decide [getMaxImagesForLayout, gridCell] at hcap
      refine gridCell_y_bound "grid-strip" text decos _ _ imgs.length j (by decide) ?_
      have hval : (gridColsRows "grid-strip").1 * (gridColsRows "grid-strip").2 = 4 := by decide
      rw [hval]
      exact hcap
    · intro c hcm hcap
      simp only [eq_self_iff_true, if_true] at hcm
      rcases mem_collageCellsAll hcm with rfl | rfl | rfl <;>
        simp only [getMaxImagesForLayout, largeCell, collageSmallCell] at hcap <;>
        norm_num +decide at hcap

/-- Claim C4 witness: the single layout with three loading images. -/
theorem c4_capacity_overflow_amended_witness :
    ("single" = "single" ∨ "single" = "grid-2x2" ∨ "single" = "grid-strip" ∨
      "single" = "collage") ∧
    (∀ s ∈ (["a", "b", "c"] : List String), (fun _ : String => true) s = true) ∧
    (∀ d ∈ ([] : List String), (fun _ : String => true) d = true) ∧
    (["a", "b", "c"] : List String) ≠ [] ∧
    (∃ out, createDownloadableCanvas "single" ["a", "b", "c"] "" [] (fun _ => true) =
        .ok out ∧
      out.cells.map (fun c => c.imgIdx) =
        List.range (if "single" = "collage"
          then min (["a", "b", "c"] : List String).length 3
          else (["a", "b", "c"] : List String).length) ∧
      (∀ c ∈ out.cells, c.imgIdx = c.idx) ∧
      (∀ c ∈ out.cells, getMaxImagesForLayout "single" ≤ c.idx → out.height ≤ c.y)) :=
  ⟨by simp, by simp, by simp, by simp,
    c4_capacity_overflow_amended "single" ["a", "b", "c"] "" [] (fun _ => true)
      (by simp) (by simp) (by simp) (by simp)⟩

/-- Claim C5 (confirmed): for each of the four documented layouts, a
successful composition's surface dimensions equal the spec's formulas
exactly. -/
theorem c5_surface_dimensions (layout : String) (imgs : List String) (text : String)
    (decos : List String) (env : String → Bool)
    (hl : layout = "single" ∨ layout = "grid-2x2" ∨ layout = "grid-strip" ∨
      layout = "collage")
    (hi : ∀ s ∈ imgs, env s = true) (hd : ∀ d ∈ decos, env d = true)
    (hne : imgs ≠ []) :
    ∃ out, createDownloadableCanvas layout imgs text decos env = .ok out ∧
      out.width = (specSurfaceSize layout).1 ∧ out.height = (specSurfaceSize layout).2 := by
  refine ⟨_, createDownloadableCanvas_success layout imgs text decos env hi hd hne,
    ?_, ?_⟩ <;>
    rcases hl with h | h | h | h <;> subst h <;>
      norm_num +decide [gridOutputAll, gridColsRows, specSurfaceSize, specCellWidth,
        specCellHeight, POLAROID_WIDTH, POLAROID_HEIGHT, IMG_SIZE, PADDING,
        TEXT_AREA_HEIGHT, GRID_GAP]

/-- Claim C5 witness: the 2x2 grid at a concrete successful call. -/
theorem c5_surface_dimensions_witness :
    ("grid-2x2" = "single" ∨ "grid-2x2" = "grid-2x2" ∨ "grid-2x2" = "grid-strip" ∨
      "grid-2x2" = "collage") ∧
    (∀ s ∈ (["a"] : List String), (fun _ : String => true) s = true) ∧
    (∀ d ∈ ([] : List String), (fun _ : String => true) d = true) ∧
    (["a"] : List String) ≠ [] ∧
    (∃ out, createDownloadableCanvas "grid-2x2" ["a"] "t" [] (fun _ => true) = .ok out ∧
      out.width = (specSurfaceSize "grid-2x2").1 ∧
      out.height = (specSurfaceSize "grid-2x2").2) :=
  ⟨by simp, by simp, by simp, by simp,
    c5_surface_dimensions "grid-2x2" ["a"] "t" [] (fun _ => true)
      (by simp) (by simp) (by simp) (by simp)⟩

/-- Claim C6 (confirmed): the cover-fit helper draws at extent
`(w*r, h*r)` with `r = max(W/w, H/h)`, offset by `((W-w*r)/2, (H-h*r)/2)`
from the target origin, and the drawn rectangle always fully covers the
target rectangle on both axes (no letterboxing). -/
theorem c6_cover_fit_covers (imgW imgH dx dy dW dH : ℚ)
    (hw : 0 < imgW) (hh : 0 < imgH) (hW : 0 < dW) (hH : 0 < dH) :
    (coverFitRect imgW imgH dx dy dW dH).w = imgW * max (dW / imgW) (dH / imgH) ∧
    (coverFitRect imgW imgH dx dy dW dH).h = imgH * max (dW / imgW) (dH / imgH) ∧
    (coverFitRect imgW imgH dx dy dW dH).x =
      dx + (dW - imgW * max (dW / imgW) (dH / imgH)) / 2 ∧
    (coverFitRect imgW imgH dx dy dW dH).y =
      dy + (dH - imgH * max (dW / imgW) (dH / imgH)) / 2 ∧
    (coverFitRect imgW imgH dx dy dW dH).x ≤ dx ∧
    (coverFitRect imgW imgH dx dy dW dH).y ≤ dy ∧
    dx + dW ≤ (coverFitRect imgW imgH dx dy dW dH).x + (coverFitRect imgW imgH dx dy dW dH).w ∧
    dy + dH ≤ (coverFitRect imgW imgH dx dy dW dH).y + (coverFitRect imgW imgH dx dy dW dH).h := by
  have hcov1 : dW ≤ imgW * max (dW / imgW) (dH / imgH) := by
    calc dW = imgW * (dW / imgW) := by field_simp
    _ ≤ imgW * max (dW / imgW) (dH / imgH) :=
        mul_le_mul_of_nonneg_left (le_max_left _ _) hw.le
  have hcov2 : dH ≤ imgH * max (dW / imgW) (dH / imgH) := by
    calc dH = imgH * (dH / imgH) := by field_simp
    _ ≤ imgH * max (dW / imgW) (dH / imgH) :=
        mul_le_mul_of_nonneg_left (le_max_right _ _) hh.le
  refine ⟨rfl, rfl, rfl, rfl, ?_, ?_, ?_, ?_⟩ <;>
    simp only [coverFitRect] <;> linarith

/-- Claim C6 witness: a wide 2x1 source in a 4x4 target. -/
theorem c6_cover_fit_covers_witness :
    (0 : ℚ) < 2 ∧ (0 : ℚ) < 1 ∧ (0 : ℚ) < 4 ∧ (0 : ℚ) < 4 ∧
    ((coverFitRect 2 1 10 20 4 4).w = 2 * max (4 / 2 : ℚ) (4 / 1) ∧
     (coverFitRect 2 1 10 20 4 4).h = 1 * max (4 / 2 : ℚ) (4 / 1) ∧
     (coverFitRect 2 1 10 20 4 4).x = 10 + (4 - 2 * max (4 / 2 : ℚ) (4 / 1)) / 2 ∧
     (coverFitRect 2 1 10 20 4 4).y = 20 + (4 - 1 * max (4 / 2 : ℚ) (4 / 1)) / 2 ∧
     (coverFitRect 2 1 10 20 4 4).x ≤ 10 ∧
     (coverFitRect 2 1 10 20 4 4).y ≤ 20 ∧
     10 + 4 ≤ (coverFitRect 2 1 10 20 4 4).x + (coverFitRect 2 1 10 20 4 4).w ∧
     20 + 4 ≤ (coverFitRect 2 1 10 20 4 4).y + (coverFitRect 2 1 10 20 4 4).h) :=
  ⟨by norm_num, by norm_num, by norm_num, by norm_num,
    c6_cover_fit_covers 2 1 10 20 4 4 (by norm_num) (by norm_num) (by norm_num)
      (by norm_num)⟩

/-- Claim C7 counterexample: a single-layout compose call with two
loading images and one loading decoration draws that decoration on both
cells, contradicting the claim that no decoration is ever drawn on more
than one cell. -/
theorem c7_decoration_drawn_on_two_cells :
    (createDownloadableCanvas "single" ["a", "b"] "" ["ribbon-decoration"]
        (fun _ => true)).toOption.map (fun o => o.cells.map (fun c => c.decos)) =
      some [["ribbon-decoration"], ["ribbon-decoration"]] := rfl

/-- Claim C7 (amended): with every asset loading, each cell's decoration
list is the full decoration map when the layout is `single` or the cell
index is 0, and empty otherwise — so in grid and collage layouts
decorations render only on the primary cell, while the single layout
passes them to every drawn cell (cells past the first lying outside the
surface). -/
theorem c7_decoration_placement_amended (layout : String) (imgs : List String)
    (text : String) (decos : List String) (env : String → Bool)
    (hi : ∀ s ∈ imgs, env s = true) (hd : ∀ d ∈ decos, env d = true)
    (hne : imgs ≠ []) :
    ∃ out, createDownloadableCanvas layout imgs text decos env = .ok out ∧
      ∀ c ∈ out.cells, c.decos = if layout = "single" ∨ c.idx = 0 then decos else [] := by
  refine ⟨_, createDownloadableCanvas_success layout imgs text decos env hi hd hne, ?_⟩
  by_cases hc : layout = "collage"
  · simp only [hc, eq_self_iff_true, if_true]
    intro c hcm
    rcases mem_collageCellsAll hcm with rfl | rfl | rfl
    · simp [largeCell]
    · simp +decide [collageSmallCell]
    · simp +decide [collageSmallCell]
  · simp only [hc, if_false, gridOutputAll]
    intro c hcm
    obtain ⟨j, hj, rfl⟩ := List.mem_map.mp hcm
    simp [gridCell]

/-- Claim C7 witness: a 2x2 grid with two images and one decoration. -/
theorem c7_decoration_placement_amended_witness :
    (∀ s ∈ (["a", "b"] : List String), (fun _ : String => true) s = true) ∧
    (∀ d ∈ (["heart-decoration"] : List String), (fun _ : String => true) d = true) ∧
    (["a", "b"] : List String) ≠ [] ∧
    (∃ out, createDownloadableCanvas "grid-2x2" ["a", "b"] "t" ["heart-decoration"]
        (fun _ => true) = .ok out ∧
      ∀ c ∈ out.cells, c.decos =
        if "grid-2x2" = "single" ∨ c.idx = 0 then ["heart-decoration"] else []) :=
  ⟨by simp, by simp, by simp,
    c7_decoration_placement_amended "grid-2x2" ["a", "b"] "t" ["heart-decoration"]
      (fun _ => true) (by simp) (by simp) (by simp)⟩

/-- Claim C8 counterexample: an unrecognized layout id composes
successfully with single-cell geometry instead of failing with an
InvalidLayoutError — no such error exists in the code. -/
theorem c8_unknown_layout_composes_successfully :
    createDownloadableCanvas "polaroid" ["a"] "" [] (fun _ => true) =
      .ok { width := 1120, height := 1280,
            cells := [{ idx := 0, x := 0, y := 0, sx := 1, sy := 1, imgIdx := 0,
                        txt := "", decos := [] }] } := by
  norm_num +decide [createDownloadableCanvas, loadOutcomes, buildDecoMap, gridColsRows,
    gridCells, gridCell, POLAROID_WIDTH, POLAROID_HEIGHT, GRID_GAP, IMG_SIZE, PADDING,
    TEXT_AREA_HEIGHT]

/-- Claim C8 (amended): an unrecognized layout id is not rejected: the
geometry defaults to one column and one row, so composition succeeds with
the single-cell surface dimensions. -/
theorem c8_unknown_layout_defaults_amended (layout : String) (imgs : List String)
    (text : String) (decos : List String) (env : String → Bool)
    (h1 : layout ≠ "collage") (h2 : layout ≠ "grid-2x2") (h3 : layout ≠ "grid-strip")
    (h4 : layout ≠ "grid-4x1")
    (hi : ∀ s ∈ imgs, env s = true) (hd : ∀ d ∈ decos, env d = true)
    (hne : imgs ≠ []) :
    ∃ out, createDownloadableCanvas layout imgs text decos env = .ok out ∧
      out.width = POLAROID_WIDTH ∧ out.height = POLAROID_HEIGHT := by
  refine ⟨_, createDownloadableCanvas_success layout imgs text decos env hi hd hne,
    ?_, ?_⟩ <;>
    norm_num [h1, h2, h3, h4, gridOutputAll, gridColsRows]

/-- Claim C8 witness: the unrecognized layout id at a concrete call. -/
theorem c8_unknown_layout_defaults_amended_witness :
    ("bogus" : String) ≠ "collage" ∧ ("bogus" : String) ≠ "grid-2x2" ∧
    ("bogus" : String) ≠ "grid-strip" ∧ ("bogus" : String) ≠ "grid-4x1" ∧
    (∀ s ∈ (["a"] : List String), (fun _ : String => true) s = true) ∧
    (∀ d ∈ ([] : List String), (fun _ : String => true) d = true) ∧
    (["a"] : List String) ≠ [] ∧
    (∃ out, createDownloadableCanvas "bogus" ["a"] "" [] (fun _ => true) = .ok out ∧
      out.width = POLAROID_WIDTH ∧ out.height = POLAROID_HEIGHT) :=
  ⟨by simp, by simp, by simp, by simp, by simp, by simp, by simp,
    c8_unknown_layout_defaults_amended "bogus" ["a"] "" [] (fun _ => true)
      (by simp) (by simp) (by simp) (by simp) (by simp) (by simp) (by simp)⟩

/-- Claim C9 (confirmed): in the collage layout the small-cell height
equals the standard cell height, so each small cell's vertical scale is 1
and only its horizontal dimension shrinks (scale
`((POLAROID_WIDTH - GRID_GAP)/2) / POLAROID_WIDTH < 1`); the surface
height is `2 * POLAROID_HEIGHT + GRID_GAP`. -/
theorem c9_collage_small_cell_geometry (imgs : List String) (text : String)
    (decos : List String) (env : String → Bool)
    (hi : ∀ s ∈ imgs, env s = true) (hd : ∀ d ∈ decos, env d = true)
    (hne : imgs ≠ []) :
    ∃ out, createDownloadableCanvas "collage" imgs text decos env = .ok out ∧
      out.height = 2 * POLAROID_HEIGHT + GRID_GAP ∧
      (∀ c ∈ out.cells, 1 ≤ c.idx →
        c.sx = ((POLAROID_WIDTH - GRID_GAP) / 2) / POLAROID_WIDTH ∧ c.sy = 1) ∧
      ((POLAROID_WIDTH - GRID_GAP) / 2) / POLAROID_WIDTH < 1 := by
  refine ⟨_, createDownloadableCanvas_success "collage" imgs text decos env hi hd hne,
    ?_, ?_, ?_⟩
  · simp only [eq_self_iff_true, if_true]
    ring
  · simp only [eq_self_iff_true, if_true]
    intro c hcm h1
    rcases mem_collageCellsAll hcm with rfl | rfl | rfl
    · simp [largeCell] at h1
    · refine ⟨rfl, ?_⟩
      norm_num [collageSmallCell, POLAROID_HEIGHT, IMG_SIZE, PADDING, TEXT_AREA_HEIGHT]
    · refine ⟨rfl, ?_⟩
      norm_num [collageSmallCell, POLAROID_HEIGHT, IMG_SIZE, PADDING, TEXT_AREA_HEIGHT]
  · norm_num [POLAROID_WIDTH, GRID_GAP]

/-- Claim C9 witness: a three-image collage. -/
theorem c9_collage_small_cell_geometry_witness :
    (∀ s ∈ (["a", "b", "c"] : List String), (fun _ : String => true) s = true) ∧
    (∀ d ∈ ([] : List String), (fun _ : String => true) d = true) ∧
    (["a", "b", "c"] : List String) ≠ [] ∧
    (∃ out, createDownloadableCanvas "collage" ["a", "b", "c"] "t" [] (fun _ => true) =
        .ok out ∧
      out.height = 2 * POLAROID_HEIGHT + GRID_GAP ∧
      (∀ c ∈ out.cells, 1 ≤ c.idx →
        c.sx = ((POLAROID_WIDTH - GRID_GAP) / 2) / POLAROID_WIDTH ∧ c.sy = 1) ∧
      ((POLAROID_WIDTH - GRID_GAP) / 2) / POLAROID_WIDTH < 1) :=
  ⟨by simp, by simp, by simp,
    c9_collage_small_cell_geometry ["a", "b", "c"] "t" [] (fun _ => true)
      (by simp) (by simp) (by simp)⟩

/-- Claim C10 counterexample: fill to four images under the grid capacity
and then add one more after switching to the single layout (capacity 1):
the newer revision shifts only one element, leaving four images — more
than the current capacity. -/
theorem c10_capacity_lowering_breaks_bound :
    (addCapturedImage (getMaxImagesForLayout "single")
      (addCapturedImage (getMaxImagesForLayout "grid-2x2")
        (addCapturedImage (getMaxImagesForLayout "grid-2x2")
          (addCapturedImage (getMaxImagesForLayout "grid-2x2")
            (addCapturedImage (getMaxImagesForLayout "grid-2x2") [] 1) 2) 3) 4) 5).length = 4 ∧
    getMaxImagesForLayout "single" = 1 := by
  decide

/-- Claim C10 (amended): the older revision's push-then-shift-while loop
keeps the list within the current capacity after every call, for every
sequence; the newer revision only guarantees the length never exceeds the
larger of the previous length and the current capacity, so the capacity
bound holds for sequences that never lower the capacity below the current
length but can be exceeded after a capacity-lowering layout change. -/
theorem c10_length_bound_amended (maxImages : Nat) (l : List Nat) (x : Nat)
    (hm : 1 ≤ maxImages) :
    (addCapturedImageAppJs maxImages l x).length ≤ maxImages ∧
    (addCapturedImage maxImages l x).length ≤ Nat.max l.length maxImages := by
  constructor
  · have key : ∀ (m : Nat) (t : List Nat), (shiftWhileOver m t).length ≤ m := by
      intro m t
      induction t with
      | nil => simp [shiftWhileOver]
      | cons a s ih =>
          simp only [shiftWhileOver]
          split
          · exact ih
          · next h =>
              simp only [List.length_cons] at h ⊢
              omega
    exact key maxImages (l ++ [x])
  · have hlen : (addCapturedImage maxImages l x).length =
        (if maxImages ≤ l.length then l.tail else l).length + 1 := by
      simp [addCapturedImage]
    rw [hlen]
    by_cases hge : maxImages ≤ l.length
    · rw [if_pos hge]
      rcases l with _ | ⟨a, t⟩
      · simp only [List.length_nil] at hge
        omega
      · simp only [List.tail_cons, List.length_cons]
        exact le_trans (Nat.le_refl _) (le_max_left _ _)
    · rw [if_neg hge]
      exact le_trans (by omega) (le_max_right l.length maxImages)

/-- Claim C10 witness: both revisions at capacity 1 with a two-element
list. -/
theorem c10_length_bound_amended_witness :
    1 ≤ 1 ∧
    (addCapturedImageAppJs 1 [5, 6] 7).length ≤ 1 ∧
    (addCapturedImage 1 [5, 6] 7).length ≤ Nat.max ([5, 6] : List Nat).length 1 :=
  ⟨by decide, (c10_length_bound_amended 1 [5, 6] 7 (by decide)).1,
    (c10_length_bound_amended 1 [5, 6] 7 (by decide)).2⟩
